import Mathlib

/-!
Shallow embedding of the RegistrationForm repository: the shared field
validator (client `validateField` in `src/components/RegistrationForm.tsx`,
draft variant in `src/registration/components/RegistrationForm.tsx`, server
`validateAndNormalize` in the Supabase route), the registration endpoints
(Supabase routes and the in-memory mock route of
`src/registration/app/api/register/route.ts`), and the client form state
engine (`handleSubmit`, `FormStatus`). Strings are modelled as `List Char`;
the JavaScript regular expressions used by the code are translated into
executable decision functions.
-/

namespace Reg

/-- Characters matched by the JavaScript `\s` class (the ones relevant to
this codebase: ASCII whitespace plus NBSP and BOM). `String.prototype.trim`
strips the same class. -/
def isWsChar (c : Char) : Bool :=
  c = ' ' || c = '\t' || c = '\n' || c = '\r' || c = '\x0b' || c = '\x0c' ||
  c = '\u00a0' || c = '\ufeff'

/-- The character class `[^\s@]` of the e-mail regexes. -/
def okChar (c : Char) : Bool := !(isWsChar c) && !(c = '@')

/-- `String.prototype.toLowerCase` on the ASCII range. -/
def lowerChar (c : Char) : Char :=
  if 'A' ≤ c ∧ c ≤ 'Z' then Char.ofNat (c.toNat + 32) else c

def lowerList (s : List Char) : List Char := s.map lowerChar

/-- `String.prototype.trim`: drop leading and trailing `\s` characters. -/
def trimStr (s : List Char) : List Char :=
  ((s.dropWhile isWsChar).reverse.dropWhile isWsChar).reverse

/-- Split a list at the first occurrence of `c`, if any. -/
def breakAt (c : Char) : List Char → Option (List Char × List Char)
  | [] => none
  | x :: xs =>
    if x = c then some ([], xs)
    else (breakAt c xs).map (fun p => (x :: p.1, p.2))

def chars (s : String) : List Char := s.data

/-- The part after the `@` has a dot with at least one character on each
side (the `[^\s@]+\.[^\s@]+` half of the shape regex, given that every
character is already checked against the class). -/
def hasInteriorDot (r : List Char) : Bool := ((r.drop 1).dropLast).contains '.'

/-- The generic address-shape regex `/^[^\s@]+@[^\s@]+\.[^\s@]+$/`. -/
def basicEmailRegex (s : List Char) : Bool :=
  match breakAt '@' s with
  | none => false
  | some (l, r) => !l.isEmpty && l.all okChar && r.all okChar && hasInteriorDot r

/-- The Gmail regex `/^[^\s@]+@gmail\.com$/`. -/
def gmailRegex (s : List Char) : Bool :=
  match breakAt '@' s with
  | none => false
  | some (l, r) => !l.isEmpty && l.all okChar && r = chars "gmail.com"

/-- `t` is a suffix of `s` (used to state the "ends in @gmail.com" rule of
the specification). -/
def endsWithL (s t : List Char) : Bool :=
  decide (t.length ≤ s.length) && decide (s.drop (s.length - t.length) = t)

/-- The `/[a-z]/` test of the password rules. -/
def isLowerAlpha (c : Char) : Bool := 'a' ≤ c && c ≤ 'z'

/-- The `/[A-Z]/` test of the password rules. -/
def isUpperAlpha (c : Char) : Bool := 'A' ≤ c && c ≤ 'Z'

/-- The `/\d/` test of the password rules. -/
def isDigitCh (c : Char) : Bool := '0' ≤ c && c ≤ '9'

/-- The punctuation set of the password symbol regex
`/[!@#$%^&*()_+\-=\[\]{};':"\\|,.<>\/?]/`. -/
def specialChars : List Char :=
  ['!', '@', '#', '$', '%', '^', '&', '*', '(', ')', '_', '+', '-', '=',
   '[', ']', '{', '}', ';', '\'', ':', '"', '\\', '|', ',', '.', '<', '>',
   '/', '?']

def isSpecialCh (c : Char) : Bool := specialChars.contains c

/-- A per-field validation message, `{ text, isWarning }`. -/
structure FieldMessage where
  text : String
  isWarning : Bool
deriving DecidableEq

/-- The five form fields. -/
inductive Field
  | firstName
  | lastName
  | email
  | password
  | confirmPassword
deriving DecidableEq

/-- The client form data record. -/
structure FormData where
  firstName : List Char
  lastName : List Char
  email : List Char
  password : List Char
  confirmPassword : List Char
deriving DecidableEq

/-- Client-side `validateField` of `src/components/RegistrationForm.tsx`
(lines 138-210).  `formData` is the component state the closure reads
(`formData.password` in the confirmPassword branch). -/
def validateField (formData : FormData) (field : Field) (value : List Char) :
    Option FieldMessage :=
  match field with
  | .firstName =>
    if value = [] then some ⟨"First name can't be empty", true⟩ else none
  | .lastName =>
    if value = [] then some ⟨"Last name can't be empty", true⟩ else none
  | .email =>
    let lowerEmail := lowerList value
    if lowerEmail = [] then some ⟨"Email can't be empty", true⟩
    else if !(basicEmailRegex lowerEmail) then
      some ⟨"Please put a valid email", true⟩
    else if !(gmailRegex lowerEmail) then
      some ⟨"Must be a Gmail address", true⟩
    else if lowerEmail = chars "test@gmail.com" then
      some ⟨"Email address is already registered", true⟩
    else none
  | .password =>
    if value = [] then some ⟨"Password can't be empty", true⟩
    else if value.length < 8 ∨ value.length > 30 then
      some ⟨"Password must be 8-30 characters", true⟩
    else if !(value.any isLowerAlpha) || !(value.any isUpperAlpha) ||
        !(value.any isDigitCh) || !(value.any isSpecialCh) then
      some ⟨"Needs upper, lower, number & symbol", true⟩
    else none
  | .confirmPassword =>
    if value = [] then some ⟨"Please confirm your password", true⟩
    else if ¬(value = formData.password) then
      some ⟨"Passwords don't match", true⟩
    else none

/-- The request body after the structural type guard (`UserData`). -/
structure UserData where
  firstName : List Char
  lastName : List Char
  email : List Char
  password : List Char
deriving DecidableEq

/-- The argument of the server validator: either something that fails the
structural check (`!data || typeof data !== "object" || ...`) or a
well-typed `UserData` record. -/
inductive BodyVal
  | malformed
  | wellTyped (u : UserData)
deriving DecidableEq

/-- A field-scoped error body `{ message, field }`. -/
structure FieldError where
  message : String
  field : String
deriving DecidableEq

/-- Server-side `validateAndNormalize` of the Supabase registration route
(`src/unnamed/part_001`, lines 20-137): structural check, normalization
(names trimmed, e-mail trimmed and lowercased, password untouched), then
the field rules in order with the first failure winning. -/
def validateAndNormalize (data : BodyVal) : Except FieldError UserData :=
  match data with
  | .malformed => .error ⟨"Invalid input data", "general"⟩
  | .wellTyped body =>
    let firstName := trimStr body.firstName
    let lastName := trimStr body.lastName
    let email := lowerList (trimStr body.email)
    let password := body.password
    if firstName = [] then .error ⟨"First name can't be empty", "firstName"⟩
    else if lastName = [] then .error ⟨"Last name can't be empty", "lastName"⟩
    else if email = [] then .error ⟨"Email can't be empty", "email"⟩
    else if !(basicEmailRegex email) then
      .error ⟨"Please put a valid email", "email"⟩
    else if !(gmailRegex email) then
      .error ⟨"Must be a Gmail address", "email"⟩
    else if email = chars "test@gmail.com" then
      .error ⟨"Email address is already registered", "email"⟩
    else if password = [] then .error ⟨"Password can't be empty", "password"⟩
    else if password.length < 8 ∨ password.length > 30 then
      .error ⟨"Password must be 8-30 characters", "password"⟩
    else if !(password.any isLowerAlpha) || !(password.any isUpperAlpha) ||
        !(password.any isDigitCh) || !(password.any isSpecialCh) then
      .error ⟨"Password needs uppercase, lowercase, number and symbol", "password"⟩
    else .ok ⟨firstName, lastName, email, password⟩

instance {α β : Type} [DecidableEq α] [DecidableEq β] :
    DecidableEq (Except α β) := fun a b =>
  match a, b with
  | .error x, .error y =>
    if h : x = y then .isTrue (by rw [h]) else .isFalse (by simp [h])
  | .error _, .ok _ => .isFalse (by simp)
  | .ok _, .error _ => .isFalse (by simp)
  | .ok x, .ok y =>
    if h : x = y then .isTrue (by rw [h]) else .isFalse (by simp [h])

/-- A user object in a successful response:
`{ id, firstName, lastName, email, createdAt }` (the `UserResponse`
interface — it has no password or hash member). -/
structure UserResponse where
  id : Nat
  firstName : List Char
  lastName : List Char
  email : List Char
  createdAt : String
deriving DecidableEq

/-- A response body: `{ success: true, message, data: { user } }` or
`{ success: false, error: { message, field } }`. -/
inductive RespBody
  | ok (message : String) (user : UserResponse)
  | err (message : String) (field : String)
deriving DecidableEq

/-- An HTTP response of the endpoint: status plus JSON body. -/
structure Response where
  status : Nat
  body : RespBody
deriving DecidableEq

/-- How `request.json()` plus the structural type guard turn out:
the JSON parse throws, the parsed value fails `validateUserData`, or a
well-typed body. -/
inductive ReqParse
  | jsonFail
  | badShape
  | body (u : UserData)
deriving DecidableEq

/-- A row as the database returns it from `insert(...).select().single()`. -/
structure DbRow where
  id : Nat
  first_name : List Char
  last_name : List Char
  email : List Char
  created_at : String
deriving DecidableEq

/-- The outcome of the store's insert: a stored row, or an error carrying a
code (PostgreSQL `23505` = unique-constraint violation). -/
inductive InsertOutcome
  | ok (row : DbRow)
  | fail (code : String)
deriving DecidableEq

namespace RouteSupabase

/-- `POST` of `src/unnamed/part_001` (lines 143-239): validate and
normalize, hash, insert; an insert error with code `23505` becomes the 409
duplicate-e-mail response, any other insert error becomes 500; a thrown
`request.json()` lands in the catch-all 500. `req = none` models the parse
throwing; `ins` is the store's answer to the insert. -/
def POST (req : Option BodyVal) (ins : InsertOutcome) : Response :=
  match req with
  | none => ⟨500, .err "Internal server error" "general"⟩
  | some bv =>
    match validateAndNormalize bv with
    | .error e => ⟨400, .err e.message e.field⟩
    | .ok _ =>
      match ins with
      | .fail code =>
        if code = "23505" then
          ⟨409, .err "Email address is already registered" "email"⟩
        else ⟨500, .err "Internal server error" "general"⟩
      | .ok row =>
        ⟨201, .ok "User registered successfully"
          ⟨row.id, row.first_name, row.last_name, row.email, row.created_at⟩⟩

end RouteSupabase

namespace RouteSupabase2

/-- `POST` of `src/unnamed/part_002` (lines 68-230): structural guard,
normalization, duplicate pre-check (`existing` is the store's answer to the
`maybeSingle` lookup), hash, insert. Any insert error is answered with
500 "Failed to create user" — the error code is not inspected. A thrown
JSON parse is answered 400 (the `SyntaxError` branch of the catch). -/
def POST (req : ReqParse) (existing : Bool) (ins : InsertOutcome) : Response :=
  match req with
  | .jsonFail => ⟨400, .err "Invalid JSON in request body" "general"⟩
  | .badShape => ⟨400, .err "Invalid input data" "general"⟩
  | .body _ =>
    if existing then
      ⟨409, .err "Email address is already registered" "email"⟩
    else
      match ins with
      | .fail _ => ⟨500, .err "Failed to create user" "general"⟩
      | .ok row =>
        ⟨201, .ok "User registered successfully"
          ⟨row.id, row.first_name, row.last_name, row.email, row.created_at⟩⟩

end RouteSupabase2

namespace RouteMock

/-- A record of the in-memory mock store (`MockUser`). -/
structure MockUser where
  id : Nat
  firstName : List Char
  lastName : List Char
  email : List Char
  passwordHash : String
  createdAt : String
deriving DecidableEq

/-- The module-level mutable state of the mock route: `mockUsers` and
`nextId`. -/
structure MockState where
  mockUsers : List MockUser
  nextId : Nat
deriving DecidableEq

/-- `POST` of `src/registration/app/api/register/route.ts` (lines 106-179)
in mock-database mode: structural guard, normalization, duplicate check
against `mockUsers` by normalized e-mail, hash (`hash` stands for
`bcrypt.hash(password, 12)`), append the record, increment `nextId`, and
answer 201 with the non-secret projection. `now` stands for
`new Date().toISOString()`. Returns the new store state and the response. -/
def POST (st : MockState) (req : ReqParse) (hash : String) (now : String) :
    MockState × Response :=
  match req with
  | .jsonFail => (st, ⟨400, .err "Invalid JSON in request body" "general"⟩)
  | .badShape => (st, ⟨400, .err "Invalid input data" "general"⟩)
  | .body b =>
    let firstName := trimStr b.firstName
    let lastName := trimStr b.lastName
    let email := lowerList (trimStr b.email)
    if st.mockUsers.any (fun u => u.email = email) then
      (st, ⟨409, .err "Email address is already registered" "email"⟩)
    else
      let newUser : MockUser := ⟨st.nextId, firstName, lastName, email, hash, now⟩
      (⟨st.mockUsers ++ [newUser], st.nextId + 1⟩,
       ⟨201, .ok "User registered successfully"
         ⟨newUser.id, newUser.firstName, newUser.lastName, newUser.email,
          newUser.createdAt⟩⟩)

end RouteMock

namespace Variant

/-- `validateField` of the draft component
`src/registration/components/RegistrationForm.tsx` (lines 53-105): the
names are trimmed before the emptiness check, the e-mail is checked
case-sensitively against the Gmail regex only (no generic shape rule), and
the sentinel message reads "This email is already registered". -/
def validateField (formData : FormData) (field : Field) (value : List Char) :
    Option FieldMessage :=
  match field with
  | .firstName =>
    if trimStr value = [] then some ⟨"First name can't be empty", true⟩
    else none
  | .lastName =>
    if trimStr value = [] then some ⟨"Last name can't be empty", true⟩
    else none
  | .email =>
    if value = [] then some ⟨"Email can't be empty", true⟩
    else if !(gmailRegex value) then some ⟨"Must be a Gmail address", true⟩
    else if value = chars "test@gmail.com" then
      some ⟨"This email is already registered", true⟩
    else none
  | .password =>
    if value = [] then some ⟨"Password can't be empty", true⟩
    else if value.length < 8 ∨ value.length > 30 then
      some ⟨"Password must be 8-30 characters", true⟩
    else if !(value.any isLowerAlpha) || !(value.any isUpperAlpha) ||
        !(value.any isDigitCh) || !(value.any isSpecialCh) then
      some ⟨"Needs upper, lower, number & symbol", true⟩
    else none
  | .confirmPassword =>
    if value = [] then some ⟨"Please confirm your password", true⟩
    else if ¬(value = formData.password) then
      some ⟨"Passwords don't match", true⟩
    else none

end Variant

/-- The per-field message map (`FieldMessages`); an absent key of the
JavaScript object is `none`. -/
structure FieldMessages where
  firstName : Option FieldMessage
  lastName : Option FieldMessage
  email : Option FieldMessage
  password : Option FieldMessage
  confirmPassword : Option FieldMessage
deriving DecidableEq

/-- The per-field touched flags. -/
structure TouchedFields where
  firstName : Bool
  lastName : Bool
  email : Bool
  password : Bool
  confirmPassword : Bool
deriving DecidableEq

/-- The four overall form states. -/
inductive FormState
  | idle
  | warning
  | failure
  | success
deriving DecidableEq

/-- The two failure sub-kinds (`FailureType`). -/
inductive FailureType
  | validation
  | server
deriving DecidableEq

/-- The component state of `src/components/RegistrationForm.tsx`. -/
structure CState where
  formData : FormData
  messages : FieldMessages
  touched : TouchedFields
  formState : FormState
  failureType : FailureType
  isSubmitting : Bool
deriving DecidableEq

def allTouched : TouchedFields := ⟨true, true, true, true, true⟩

def noneTouched : TouchedFields := ⟨false, false, false, false, false⟩

def emptyMessages : FieldMessages := ⟨none, none, none, none, none⟩

def emptyFormData : FormData := ⟨[], [], [], [], []⟩

/-- The initial component state (the `useState` initializers). -/
def initialState : CState :=
  ⟨emptyFormData, emptyMessages, noneTouched, .idle, .validation, false⟩

/-- The message map `handleSubmit` computes by validating every field
(`Object.keys(formData).forEach`); a field that passes has no entry. -/
def submitMessages (fd : FormData) : FieldMessages :=
  ⟨validateField fd .firstName fd.firstName,
   validateField fd .lastName fd.lastName,
   validateField fd .email fd.email,
   validateField fd .password fd.password,
   validateField fd .confirmPassword fd.confirmPassword⟩

/-- `hasErrors`: some field's message is non-null. -/
def hasAnyMessage (m : FieldMessages) : Bool :=
  m.firstName.isSome || m.lastName.isSome || m.email.isSome ||
  m.password.isSome || m.confirmPassword.isSome

/-- The message map `{[field]: {text, isWarning: true}}` with a single
entry, as built from a field-scoped server error. -/
def singleMessage (f : Field) (msg : FieldMessage) : FieldMessages :=
  match f with
  | .firstName => ⟨some msg, none, none, none, none⟩
  | .lastName => ⟨none, some msg, none, none, none⟩
  | .email => ⟨none, none, some msg, none, none⟩
  | .password => ⟨none, none, none, some msg, none⟩
  | .confirmPassword => ⟨none, none, none, none, some msg⟩

/-- How the awaited `fetch` of `handleSubmit` resolves: `response.ok`; a
non-2xx response whose parsed body carries `error.field` and
`error.message`; a non-2xx response without both; or a thrown call. -/
inductive NetOutcome
  | ok
  | errField (f : Field) (message : String)
  | errGeneric
  | threw
deriving DecidableEq

/-- `handleSubmit` of `src/components/RegistrationForm.tsx` (lines
285-373), as a state transformer: force-touch every field, validate all
fields; on any failure store the messages and enter failure/validation
without calling the network; otherwise interpret the network outcome
(success resets everything; a field-scoped error enters warning with that
single message; anything else enters failure/server). An empty
`error.message` string is falsy in the JavaScript guard, hence the generic
branch. -/
def handleSubmit (s : CState) (net : NetOutcome) : CState :=
  let newMessages := submitMessages s.formData
  if hasAnyMessage newMessages then
    { s with touched := allTouched, messages := newMessages,
             failureType := .validation, formState := .failure }
  else
    match net with
    | .ok =>
      ⟨emptyFormData, emptyMessages, noneTouched, .success, s.failureType, false⟩
    | .errField f msg =>
      if msg = "" then
        { s with touched := allTouched, failureType := .server,
                 formState := .failure, isSubmitting := false }
      else
        { s with touched := allTouched, formState := .warning,
                 messages := singleMessage f ⟨msg, true⟩, isSubmitting := false }
    | .errGeneric =>
      { s with touched := allTouched, failureType := .server,
               formState := .failure, isSubmitting := false }
    | .threw =>
      { s with touched := allTouched, failureType := .server,
               formState := .failure, isSubmitting := false }

/-- The `FormStatus` banner (lines 39-70): shown only in the failure state,
with one text per failure sub-kind. -/
def bannerOf (s : CState) : Option String :=
  if s.formState = .failure then
    match s.failureType with
    | .validation => some "Oops-Please correct errors below:("
    | .server => some "Something went wrong on our end. Please try again."
  else none

theorem endsWithL_iff (s t : List Char) :
    endsWithL s t = true ↔ ∃ p, s = p ++ t := by
  unfold endsWithL
  simp only [Bool.and_eq_true, decide_eq_true_eq]
  constructor
  · rintro ⟨hle, hdrop⟩
    refine ⟨s.take (s.length - t.length), ?_⟩
    conv_lhs => rw [← List.take_append_drop (s.length - t.length) s]
    rw [hdrop]
  · rintro ⟨p, rfl⟩
    constructor
    · simp
    · have : (p ++ t).length - t.length = p.length := by simp
      rw [this, List.drop_left]

theorem breakAt_some (c : Char) :
    ∀ (s l r : List Char), breakAt c s = some (l, r) → s = l ++ c :: r ∧ c ∉ l := by
  intro s
  induction s with
  | nil => intro l r h; simp [breakAt] at h
  | cons x xs ih =>
    intro l r h
    by_cases hx : x = c
    · rw [breakAt, if_pos hx] at h
      injection h with h'
      cases h'
      simp [hx]
    · rw [breakAt, if_neg hx] at h
      obtain ⟨⟨l', r'⟩, hbk, hmap⟩ := Option.map_eq_some'.mp h
      obtain ⟨hl, hr⟩ := Prod.mk.injEq _ _ _ _ ▸ hmap
      obtain ⟨hs, hnm⟩ := ih l' r' hbk
      subst hl hr
      refine ⟨by rw [hs]; rfl, ?_⟩
      intro hmem
      rcases List.mem_cons.mp hmem with h1 | h2
      · exact hx h1.symm
      · exact hnm h2

theorem eq_of_double_split (c : Char) :
    ∀ (l r p q : List Char), l ++ c :: r = p ++ c :: q → c ∉ l → c ∉ r →
      l = p ∧ r = q := by
  intro l
  induction l with
  | nil =>
    intro r p q h hl hr
    cases p with
    | nil => simpa using h
    | cons b bs =>
      simp only [List.nil_append, List.cons_append, List.cons.injEq] at h
      exfalso
      exact hr (h.2 ▸ List.mem_append_right bs (List.mem_cons_self c _))
  | cons a as ih =>
    intro r p q h hl hr
    cases p with
    | nil =>
      simp only [List.cons_append, List.nil_append, List.cons.injEq] at h
      exact absurd (h.1 ▸ List.mem_cons_self a as) hl
    | cons b bs =>
      simp only [List.cons_append, List.cons.injEq] at h
      obtain ⟨hab, h2⟩ := h
      obtain ⟨h3, h4⟩ := ih r bs q h2 (fun hm => hl (List.mem_cons_of_mem _ hm)) hr
      exact ⟨by rw [hab, h3], h4⟩

theorem not_mem_of_all_okChar (l : List Char) (h : l.all okChar = true) :
    '@' ∉ l := by
  intro hmem
  have := List.all_eq_true.mp h '@' hmem
  simp [okChar] at this

/-- Given that the generic shape regex accepts `e`, the Gmail regex is the
same test as "ends with @gmail.com". -/
theorem gmail_eq_endsWith (e : List Char) (hb : basicEmailRegex e = true) :
    gmailRegex e = endsWithL e (chars "@gmail.com") := by
  unfold basicEmailRegex at hb
  cases hbk : breakAt '@' e with
  | none => rw [hbk] at hb; exact absurd hb (by simp)
  | some lr =>
    obtain ⟨l, r⟩ := lr
    rw [hbk] at hb
    simp only [Bool.and_eq_true] at hb
    obtain ⟨⟨⟨hne, hla⟩, hra⟩, _⟩ := hb
    obtain ⟨hs, hnl⟩ := breakAt_some '@' e l r hbk
    have hnr : '@' ∉ r := not_mem_of_all_okChar r hra
    cases hg : gmailRegex e <;> cases he : endsWithL e (chars "@gmail.com") <;>
      try rfl
    · exfalso
      obtain ⟨p, hp⟩ := (endsWithL_iff _ _).mp he
      have hp' : l ++ '@' :: r = p ++ '@' :: chars "gmail.com" := by
        rw [← hs, hp]; rfl
      obtain ⟨hlp, hrq⟩ := eq_of_double_split '@' l r p (chars "gmail.com") hp' hnl hnr
      rw [gmailRegex, hbk] at hg
      simp [hne, hla, hrq] at hg
    · exfalso
      rw [gmailRegex, hbk] at hg
      simp only [Bool.and_eq_true] at hg
      obtain ⟨_, hr⟩ := hg
      have : e = l ++ chars "@gmail.com" := by
        rw [hs, decide_eq_true_eq.mp hr]; rfl
      rw [(endsWithL_iff e (chars "@gmail.com")).mpr ⟨l, this⟩] at he
      exact Bool.true_eq_false.mp he

/-- `validateAndNormalize` with the first name under test and fixed valid
values in the other fields, reduced to the first-name rule. -/
theorem van_firstName (v : List Char) :
    validateAndNormalize (.wellTyped ⟨v, chars "Doe", chars "john@gmail.com", chars "Password123!"⟩) =
      if trimStr v = [] then .error ⟨"First name can't be empty", "firstName"⟩
      else .ok ⟨trimStr v, chars "Doe", chars "john@gmail.com", chars "Password123!"⟩ := by
  by_cases h : trimStr v = []
  · simp [validateAndNormalize, h]
  · simp only [validateAndNormalize]
    rw [if_neg h, if_neg h]
    rfl

/-- `validateAndNormalize` with the last name under test, reduced to the
last-name rule. -/
theorem van_lastName (v : List Char) :
    validateAndNormalize (.wellTyped ⟨chars "John", v, chars "john@gmail.com", chars "Password123!"⟩) =
      if trimStr v = [] then .error ⟨"Last name can't be empty", "lastName"⟩
      else .ok ⟨chars "John", trimStr v, chars "john@gmail.com", chars "Password123!"⟩ := by
  by_cases h : trimStr v = []
  · simp [validateAndNormalize, h]
    decide
  · simp only [validateAndNormalize]
    rw [if_neg (by decide : ¬(trimStr (chars "John") = [])), if_neg h, if_neg h]
    rfl

/-- `validateAndNormalize` with the password under test, reduced to the
password rules. -/
theorem van_password (v : List Char) :
    validateAndNormalize (.wellTyped ⟨chars "John", chars "Doe", chars "john@gmail.com", v⟩) =
      (if v = [] then .error ⟨"Password can't be empty", "password"⟩
       else if v.length < 8 ∨ v.length > 30 then
         .error ⟨"Password must be 8-30 characters", "password"⟩
       else if !(v.any isLowerAlpha) || !(v.any isUpperAlpha) ||
           !(v.any isDigitCh) || !(v.any isSpecialCh) then
         .error ⟨"Password needs uppercase, lowercase, number and symbol", "password"⟩
       else .ok ⟨chars "John", chars "Doe", chars "john@gmail.com", v⟩) := by
  by_cases h1 : v = []
  · simp [validateAndNormalize, h1]
    decide
  · by_cases h2 : v.length < 8 ∨ v.length > 30
    · simp [validateAndNormalize, h1, h2]
      decide
    · by_cases h3 : (!(v.any isLowerAlpha) || !(v.any isUpperAlpha) ||
           !(v.any isDigitCh) || !(v.any isSpecialCh)) = true
      · simp [validateAndNormalize, h1, h2, h3]
        decide
      · simp [validateAndNormalize, h1, h2, h3]
        rfl

/-- `validateAndNormalize` with the e-mail under test, reduced to the
e-mail rules. -/
theorem van_email (v : List Char) :
    validateAndNormalize (.wellTyped ⟨chars "John", chars "Doe", v, chars "Password123!"⟩) =
      (if lowerList (trimStr v) = [] then .error ⟨"Email can't be empty", "email"⟩
       else if !(basicEmailRegex (lowerList (trimStr v))) then
         .error ⟨"Please put a valid email", "email"⟩
       else if !(gmailRegex (lowerList (trimStr v))) then
         .error ⟨"Must be a Gmail address", "email"⟩
       else if lowerList (trimStr v) = chars "test@gmail.com" then
         .error ⟨"Email address is already registered", "email"⟩
       else .ok ⟨chars "John", chars "Doe", lowerList (trimStr v), chars "Password123!"⟩) := by
  by_cases h1 : lowerList (trimStr v) = []
  · simp [validateAndNormalize, h1]
    decide
  · by_cases h2 : (!(basicEmailRegex (lowerList (trimStr v)))) = true
    · simp [validateAndNormalize, h1, h2]
      decide
    · by_cases h3 : (!(gmailRegex (lowerList (trimStr v)))) = true
      · simp [validateAndNormalize, h1, h2, h3]
        decide
      · by_cases h4 : lowerList (trimStr v) = chars "test@gmail.com"
        · simp [validateAndNormalize, h1, h2, h3, h4]
          decide
        · simp [validateAndNormalize, h1, h2, h3, h4]
          rfl

/-- The client verdict and the server verdict agree: both accept, or both
reject with the same message text. -/
def msgAgrees (c : Option FieldMessage) (s : Except FieldError UserData) : Prop :=
  match c, s with
  | none, .ok _ => True
  | some m, .error e => m.text = e.message
  | _, _ => False

/-- Agreement up to the one differing wording: the client and server
character-class messages for the password differ textually. -/
def msgAgreesUpToWording (c : Option FieldMessage) (s : Except FieldError UserData) : Prop :=
  match c, s with
  | none, .ok _ => True
  | some m, .error e =>
    m.text = e.message ∨
    (m.text = "Needs upper, lower, number & symbol" ∧
     e.message = "Password needs uppercase, lowercase, number and symbol")
  | _, _ => False

/-- C1 (counterexample): the claim that client and server validators always
agree and produce the same message text fails. On the password
"aaaaaaaa" both reject, but the client text is "Needs upper, lower, number
& symbol" while the server text is "Password needs uppercase, lowercase,
number and symbol"; on the first name " " (one space) the client accepts
(it does not trim) while the server rejects. -/
theorem clientServerMessages_disagree :
    (validateField ⟨[], [], [], [], []⟩ .password (chars "aaaaaaaa") =
       some ⟨"Needs upper, lower, number & symbol", true⟩) ∧
    (validateAndNormalize (.wellTyped ⟨chars "John", chars "Doe",
        chars "john@gmail.com", chars "aaaaaaaa"⟩) =
       .error ⟨"Password needs uppercase, lowercase, number and symbol", "password"⟩) ∧
    (validateField ⟨[], [], [], [], []⟩ .firstName (chars " ") = none) ∧
    (validateAndNormalize (.wellTyped ⟨chars " ", chars "Doe",
        chars "john@gmail.com", chars "Password123!"⟩) =
       .error ⟨"First name can't be empty", "firstName"⟩) := by
  refine ⟨by decide, by decide, by decide, by decide⟩

/-- C1 (amended): for firstName, lastName and email the client
`validateField` and the server `validateAndNormalize` (run with valid
values in the sibling fields) agree — same accept/reject and same message
text — on every value with no leading or trailing whitespace; for the
password they agree on every value up to the differing wording of the
character-class message. -/
theorem validateField_refines_validateAndNormalize (fd : FormData) (v : List Char) :
    (trimStr v = v →
      msgAgrees (validateField fd .firstName v)
        (validateAndNormalize (.wellTyped ⟨v, chars "Doe", chars "john@gmail.com", chars "Password123!"⟩))) ∧
    (trimStr v = v →
      msgAgrees (validateField fd .lastName v)
        (validateAndNormalize (.wellTyped ⟨chars "John", v, chars "john@gmail.com", chars "Password123!"⟩))) ∧
    (trimStr v = v →
      msgAgrees (validateField fd .email v)
        (validateAndNormalize (.wellTyped ⟨chars "John", chars "Doe", v, chars "Password123!"⟩))) ∧
    msgAgreesUpToWording (validateField fd .password v)
      (validateAndNormalize (.wellTyped ⟨chars "John", chars "Doe", chars "john@gmail.com", v⟩)) := by
  refine ⟨?_, ?_, ?_, ?_⟩
  · intro h
    rw [van_firstName]
    by_cases hv : v = []
    · simp [validateField, msgAgrees, h, hv]
      rfl
    · simp [validateField, msgAgrees, h, hv]
  · intro h
    rw [van_lastName]
    by_cases hv : v = []
    · simp [validateField, msgAgrees, h, hv]
      rfl
    · simp [validateField, msgAgrees, h, hv]
  · intro h
    rw [van_email, h]
    by_cases h1 : lowerList v = []
    · simp [validateField, msgAgrees, h1]
    · by_cases h2 : (!(basicEmailRegex (lowerList v))) = true
      · simp [validateField, msgAgrees, h1, h2]
      · by_cases h3 : (!(gmailRegex (lowerList v))) = true
        · simp [validateField, msgAgrees, h1, h2, h3]
        · by_cases h4 : lowerList v = chars "test@gmail.com"
          · simp [validateField, msgAgrees, h1, h2, h3, h4]
            rfl
          · simp [validateField, msgAgrees, h1, h2, h3, h4]
  · rw [van_password]
    by_cases h1 : v = []
    · simp [validateField, msgAgreesUpToWording, h1]
    · by_cases h2 : v.length < 8 ∨ v.length > 30
      · simp [validateField, msgAgreesUpToWording, h1, h2]
      · by_cases h3 : (!(v.any isLowerAlpha) || !(v.any isUpperAlpha) ||
            !(v.any isDigitCh) || !(v.any isSpecialCh)) = true
        · simp [validateField, msgAgreesUpToWording, h1, h2, h3]
        · simp [validateField, msgAgreesUpToWording, h1, h2, h3]

/-- C1 (witness): the agreement theorem applied at concrete whitespace-free
inputs. -/
theorem validateField_refines_witness :
    msgAgrees (validateField ⟨[], [], [], [], []⟩ .email (chars "TeSt@GMAIL.com"))
      (validateAndNormalize (.wellTyped ⟨chars "John", chars "Doe",
        chars "TeSt@GMAIL.com", chars "Password123!"⟩)) ∧
    msgAgreesUpToWording (validateField ⟨[], [], [], [], []⟩ .password (chars "Password123!"))
      (validateAndNormalize (.wellTyped ⟨chars "John", chars "Doe",
        chars "john@gmail.com", chars "Password123!"⟩)) :=
  ⟨(validateField_refines_validateAndNormalize ⟨[], [], [], [], []⟩
      (chars "TeSt@GMAIL.com")).2.2.1 (by decide),
   (validateField_refines_validateAndNormalize ⟨[], [], [], [], []⟩
      (chars "Password123!")).2.2.2⟩

theorem lowerList_eq_nil (s : List Char) : lowerList s = [] ↔ s = [] := by
  simp [lowerList]

/-- C2 (counterexample): on the client validator a whitespace-only e-mail
value yields "Please put a valid email", not the claimed "Email can't be
empty" — the client lowercases but never trims, so " " is non-empty and
fails the shape rule. -/
theorem emailRules_whitespaceOnly :
    validateField ⟨[], [], [], [], []⟩ .email (chars " ") =
      some ⟨"Please put a valid email", true⟩ ∧
    ¬(validateField ⟨[], [], [], [], []⟩ .email (chars " ") =
      some ⟨"Email can't be empty", true⟩) := by
  refine ⟨by decide, by decide⟩

/-- C2 (amended): the four e-mail rules apply in order with the first
failing rule winning — emptiness, the generic shape, ending in
"@gmail.com" case-insensitively, the sentinel "test@gmail.com" — where the
server applies them to the trimmed lowercased value (so its first rule is
"empty after trimming") while the client applies them to the merely
lowercased value (so a whitespace-only value falls through to the shape
rule instead of the emptiness rule). -/
theorem emailRules_inOrder (fd : FormData) (v : List Char) :
    (validateField fd .email v =
      (if lowerList v = [] then some ⟨"Email can't be empty", true⟩
       else if !(basicEmailRegex (lowerList v)) then
         some ⟨"Please put a valid email", true⟩
       else if !(endsWithL (lowerList v) (chars "@gmail.com")) then
         some ⟨"Must be a Gmail address", true⟩
       else if lowerList v = chars "test@gmail.com" then
         some ⟨"Email address is already registered", true⟩
       else none)) ∧
    (validateAndNormalize (.wellTyped ⟨chars "John", chars "Doe", v, chars "Password123!"⟩) =
      (if trimStr v = [] then .error ⟨"Email can't be empty", "email"⟩
       else if !(basicEmailRegex (lowerList (trimStr v))) then
         .error ⟨"Please put a valid email", "email"⟩
       else if !(endsWithL (lowerList (trimStr v)) (chars "@gmail.com")) then
         .error ⟨"Must be a Gmail address", "email"⟩
       else if lowerList (trimStr v) = chars "test@gmail.com" then
         .error ⟨"Email address is already registered", "email"⟩
       else .ok ⟨chars "John", chars "Doe", lowerList (trimStr v), chars "Password123!"⟩)) := by
  constructor
  · by_cases h1 : lowerList v = []
    · simp [validateField, h1]
    · by_cases h2 : basicEmailRegex (lowerList v) = true
      · have hg := gmail_eq_endsWith (lowerList v) h2
        simp only [validateField]
        rw [hg]
      · simp [validateField, h1, Bool.not_eq_true _ ▸ h2]
  · rw [van_email]
    by_cases h1 : lowerList (trimStr v) = []
    · have h1' : trimStr v = [] := (lowerList_eq_nil _).mp h1
      simp [h1, h1', lowerList]
    · have h1' : ¬(trimStr v = []) := fun hh => h1 ((lowerList_eq_nil _).mpr hh)
      by_cases h2 : basicEmailRegex (lowerList (trimStr v)) = true
      · have hg := gmail_eq_endsWith _ h2
        rw [hg, if_neg h1, if_neg h1']
      · rw [if_neg h1, if_neg h1']
        simp [h2]

/-- A fully valid client form data record, used as a concrete input. -/
def validFormData : FormData :=
  ⟨chars "John", chars "Doe", chars "john@gmail.com",
   chars "Password123!", chars "Password123!"⟩

/-- C3 (counterexample): in the draft Supabase route with the pre-check
(`src/unnamed/part_002`), an insert that fails with the duplicate-key code
23505 is answered 500 "Failed to create user", not the claimed 409. -/
theorem insertDuplicate_500_inDraftRoute :
    RouteSupabase2.POST
      (.body ⟨chars "John", chars "Doe", chars "john@gmail.com", chars "Password123!"⟩)
      false (.fail "23505") = ⟨500, .err "Failed to create user" "general"⟩ ∧
    ¬((RouteSupabase2.POST
      (.body ⟨chars "John", chars "Doe", chars "john@gmail.com", chars "Password123!"⟩)
      false (.fail "23505")).status = 409) := by
  refine ⟨by decide, by decide⟩

/-- C3 (amended): in the Supabase route that inspects the insert error code
(`src/unnamed/part_001`), a duplicate-key (23505) insert failure on a
validated request is answered with exactly the 409 body
`{email, "Email address is already registered"}` — the same response value
the application-level pre-check produces in the other routes (the draft
route's pre-check hit, and the mock route's 409). The draft route's own
insert-failure path, by contrast, answers 500 (see the counterexample). -/
theorem duplicateKeyInsert_409 (bv : BodyVal) (d : UserData)
    (h : validateAndNormalize bv = .ok d) :
    RouteSupabase.POST (some bv) (.fail "23505") =
      ⟨409, .err "Email address is already registered" "email"⟩ ∧
    (∀ (u : UserData) (ins : InsertOutcome),
      RouteSupabase2.POST (.body u) true ins =
        ⟨409, .err "Email address is already registered" "email"⟩) ∧
    (∀ (st : RouteMock.MockState) (u : UserData) (hash now : String),
      (RouteMock.POST st (.body u) hash now).2.status = 409 →
      (RouteMock.POST st (.body u) hash now).2 =
        ⟨409, .err "Email address is already registered" "email"⟩) := by
  refine ⟨?_, ?_, ?_⟩
  · simp [RouteSupabase.POST, h]
  · intro u ins
    simp [RouteSupabase2.POST]
  · intro st u hash now h9
    by_cases hdup : st.mockUsers.any
        (fun x => x.email = lowerList (trimStr u.email)) = true
    · simp [RouteMock.POST, hdup]
    · simp [RouteMock.POST, hdup] at h9

/-- C3 (witness): the amended theorem at a concrete validated request. -/
theorem duplicateKeyInsert_409_witness :
    RouteSupabase.POST
      (some (.wellTyped ⟨chars "John", chars "Doe", chars "john@gmail.com", chars "Password123!"⟩))
      (.fail "23505") = ⟨409, .err "Email address is already registered" "email"⟩ :=
  (duplicateKeyInsert_409 _
    ⟨chars "John", chars "Doe", chars "john@gmail.com", chars "Password123!"⟩ (by decide)).1

/-- C4 (confirmed): when some field fails validation, submit force-touches
all five fields, ignores the network (the outcome argument is irrelevant:
the call is never made), and enters failure with sub-kind validation; the
all-empty form produces the five required-field messages and the
validation-failure banner. -/
theorem submit_validationFailure (s : CState) (net net2 : NetOutcome)
    (h : hasAnyMessage (submitMessages s.formData) = true) :
    (handleSubmit s net).formState = .failure ∧
    (handleSubmit s net).failureType = .validation ∧
    (handleSubmit s net).touched = allTouched ∧
    handleSubmit s net = handleSubmit s net2 ∧
    bannerOf (handleSubmit s net) = some "Oops-Please correct errors below:(" ∧
    submitMessages emptyFormData =
      ⟨some ⟨"First name can't be empty", true⟩,
       some ⟨"Last name can't be empty", true⟩,
       some ⟨"Email can't be empty", true⟩,
       some ⟨"Password can't be empty", true⟩,
       some ⟨"Please confirm your password", true⟩⟩ := by
  refine ⟨?_, ?_, ?_, ?_, ?_, by decide⟩ <;> simp [handleSubmit, h, bannerOf]

/-- C4 (witness): submitting the initial (all-empty) form. -/
theorem submit_validationFailure_witness :
    (handleSubmit initialState .ok).formState = .failure ∧
    (handleSubmit initialState .ok).failureType = .validation ∧
    (handleSubmit initialState .ok).touched = allTouched ∧
    handleSubmit initialState .ok = handleSubmit initialState .threw ∧
    bannerOf (handleSubmit initialState .ok) = some "Oops-Please correct errors below:(" :=
  let w := submit_validationFailure initialState .ok .threw (by decide)
  ⟨w.1, w.2.1, w.2.2.1, w.2.2.2.1, w.2.2.2.2.1⟩

/-- C5 (confirmed): when every field passes client validation and the
server rejects with a field-scoped error (non-empty message), the engine
enters warning with exactly that one message on the named field, no banner,
and the submit control re-enabled. -/
theorem submit_fieldScopedServerError (s : CState) (f : Field) (m : String)
    (h : hasAnyMessage (submitMessages s.formData) = false) (hm : ¬(m = "")) :
    (handleSubmit s (.errField f m)).formState = .warning ∧
    (handleSubmit s (.errField f m)).messages = singleMessage f ⟨m, true⟩ ∧
    bannerOf (handleSubmit s (.errField f m)) = none ∧
    (handleSubmit s (.errField f m)).isSubmitting = false := by
  refine ⟨?_, ?_, ?_, ?_⟩ <;> simp [handleSubmit, h, hm, bannerOf]

/-- C5 (witness): a valid form submitted against a 409 duplicate-e-mail
response. -/
theorem submit_fieldScopedServerError_witness :
    (handleSubmit { initialState with formData := validFormData }
      (.errField .email "Email address is already registered")).formState = .warning ∧
    (handleSubmit { initialState with formData := validFormData }
      (.errField .email "Email address is already registered")).messages =
      singleMessage .email ⟨"Email address is already registered", true⟩ ∧
    bannerOf (handleSubmit { initialState with formData := validFormData }
      (.errField .email "Email address is already registered")) = none :=
  let w := submit_fieldScopedServerError { initialState with formData := validFormData }
    .email "Email address is already registered" (by decide) (by decide)
  ⟨w.1, w.2.1, w.2.2.1⟩

/-- C6 (confirmed): the client e-mail verdict depends only on the
lowercased value (so any letter-case variant of a value gets the same
result, and "TEST@GMAIL.COM" is rejected exactly like "test@gmail.com"
with "Email address is already registered"), and the mock endpoint stores
the trimmed lowercased e-mail. -/
theorem emailCaseInsensitive (fd : FormData) (v w : List Char)
    (h : lowerList v = lowerList w) :
    validateField fd .email v = validateField fd .email w ∧
    (validateField fd .email (chars "TEST@GMAIL.COM") =
      some ⟨"Email address is already registered", true⟩) ∧
    (validateField fd .email (chars "TEST@GMAIL.COM") =
      validateField fd .email (chars "test@gmail.com")) ∧
    (∀ (st : RouteMock.MockState) (b : UserData) (hash now : String),
      st.mockUsers.any (fun x => x.email = lowerList (trimStr b.email)) = false →
      (RouteMock.POST st (.body b) hash now).1.mockUsers =
        st.mockUsers ++ [⟨st.nextId, trimStr b.firstName, trimStr b.lastName,
          lowerList (trimStr b.email), hash, now⟩]) := by
  refine ⟨?_, rfl, rfl, ?_⟩
  · simp only [validateField]
    rw [h]
  · intro st b hash now hdup
    simp [RouteMock.POST, hdup]

/-- C6 (witness): "TeSt@GMAIL.com" versus "test@gmail.com", and a
mixed-case registration stored lowercased. -/
theorem emailCaseInsensitive_witness :
    validateField emptyFormData .email (chars "TeSt@GMAIL.com") =
      validateField emptyFormData .email (chars "test@gmail.com") ∧
    (RouteMock.POST ⟨[], 1⟩
      (.body ⟨chars "John", chars "Doe", chars "John.Doe@Gmail.COM", chars "Password123!"⟩)
      "h" "t").1.mockUsers =
      [⟨1, chars "John", chars "Doe", chars "john.doe@gmail.com", "h", "t"⟩] :=
  let w := emailCaseInsensitive emptyFormData (chars "TeSt@GMAIL.com")
    (chars "test@gmail.com") (by decide)
  ⟨w.1, by
    have := w.2.2.2 ⟨[], 1⟩
      ⟨chars "John", chars "Doe", chars "John.Doe@Gmail.COM", chars "Password123!"⟩
      "h" "t" (by decide)
    simpa using this⟩

/-- C7 (counterexample): the canonical client validator accepts the
whitespace-only first name " " (it checks only literal emptiness), where
the claim requires the message "First name can't be empty". -/
theorem firstName_whitespace_accepted :
    validateField ⟨[], [], [], [], []⟩ .firstName (chars " ") = none ∧
    ¬(validateField ⟨[], [], [], [], []⟩ .firstName (chars " ") =
        some ⟨"First name can't be empty", true⟩) := by
  refine ⟨by decide, by decide⟩

/-- C7 (amended): the draft variant validator and the server trim first and
satisfy the claim (message exactly when the value is empty after
trimming); the canonical client checks only literal emptiness, so a
whitespace-only name passes there. -/
theorem nameEmptiness_rules (fd : FormData) (v : List Char) :
    (Variant.validateField fd .firstName v =
      if trimStr v = [] then some ⟨"First name can't be empty", true⟩ else none) ∧
    (Variant.validateField fd .lastName v =
      if trimStr v = [] then some ⟨"Last name can't be empty", true⟩ else none) ∧
    (validateField fd .firstName v =
      if v = [] then some ⟨"First name can't be empty", true⟩ else none) ∧
    (validateField fd .lastName v =
      if v = [] then some ⟨"Last name can't be empty", true⟩ else none) ∧
    (validateAndNormalize (.wellTyped ⟨v, chars "Doe", chars "john@gmail.com",
        chars "Password123!"⟩) =
      .error ⟨"First name can't be empty", "firstName"⟩ ↔ trimStr v = []) ∧
    (validateAndNormalize (.wellTyped ⟨chars "John", v, chars "john@gmail.com",
        chars "Password123!"⟩) =
      .error ⟨"Last name can't be empty", "lastName"⟩ ↔ trimStr v = []) := by
  refine ⟨rfl, rfl, rfl, rfl, ?_, ?_⟩
  · rw [van_firstName]
    by_cases h : trimStr v = [] <;> simp [h]
  · rw [van_lastName]
    by_cases h : trimStr v = [] <;> simp [h]

/-- C8 (confirmed): a 201 of the mock route carries exactly the non-secret
projection (id, trimmed names, normalized e-mail, timestamp); the response
is independent of the password and of the computed hash; and the Supabase
route's 201 carries exactly the non-secret projection of the stored row
(`UserResponse` has no hash member). -/
theorem successResponse_nonSecret (st : RouteMock.MockState) (b : UserData)
    (hash hash2 now : String) (p2 : List Char) (bv : BodyVal) (d : UserData)
    (row : DbRow)
    (hdup : st.mockUsers.any (fun x => x.email = lowerList (trimStr b.email)) = false)
    (hok : validateAndNormalize bv = .ok d) :
    (RouteMock.POST st (.body b) hash now).2 =
      ⟨201, .ok "User registered successfully"
        ⟨st.nextId, trimStr b.firstName, trimStr b.lastName,
         lowerList (trimStr b.email), now⟩⟩ ∧
    (RouteMock.POST st (.body b) hash now).2 =
      (RouteMock.POST st (.body ⟨b.firstName, b.lastName, b.email, p2⟩) hash2 now).2 ∧
    RouteSupabase.POST (some bv) (.ok row) =
      ⟨201, .ok "User registered successfully"
        ⟨row.id, row.first_name, row.last_name, row.email, row.created_at⟩⟩ := by
  refine ⟨?_, ?_, ?_⟩
  · simp [RouteMock.POST, hdup]
  · simp [RouteMock.POST, hdup]
  · simp [RouteSupabase.POST, hok]

/-- C8 (witness): a fresh registration against the empty store, and a
Supabase insert echoing row id 7. -/
theorem successResponse_nonSecret_witness :
    (RouteMock.POST ⟨[], 1⟩
      (.body ⟨chars "John", chars "Doe", chars "john@gmail.com", chars "Password123!"⟩)
      "bcrypt-hash" "2026-01-01").2 =
      ⟨201, .ok "User registered successfully"
        ⟨1, chars "John", chars "Doe", chars "john@gmail.com", "2026-01-01"⟩⟩ ∧
    RouteSupabase.POST
      (some (.wellTyped ⟨chars "John", chars "Doe", chars "john@gmail.com", chars "Password123!"⟩))
      (.ok ⟨7, chars "John", chars "Doe", chars "john@gmail.com", "2026-01-01"⟩) =
      ⟨201, .ok "User registered successfully"
        ⟨7, chars "John", chars "Doe", chars "john@gmail.com", "2026-01-01"⟩⟩ :=
  let w := successResponse_nonSecret ⟨[], 1⟩
    ⟨chars "John", chars "Doe", chars "john@gmail.com", chars "Password123!"⟩
    "bcrypt-hash" "other" "2026-01-01" (chars "x")
    (.wellTyped ⟨chars "John", chars "Doe", chars "john@gmail.com", chars "Password123!"⟩)
    ⟨chars "John", chars "Doe", chars "john@gmail.com", chars "Password123!"⟩
    ⟨7, chars "John", chars "Doe", chars "john@gmail.com", "2026-01-01"⟩
    (by decide) (by decide)
  ⟨by simpa using w.1, w.2.2⟩

/-- C9 (confirmed): the password length rule accepts [8,30] inclusive —
lengths 7 and 31 are answered "Password must be 8-30 characters" by both
validators, and lengths 8 and 30 pass the length rule (with the character
classes present, validation passes outright) on both. -/
theorem passwordLengthBoundary (fd : FormData) (v : List Char) :
    ((v.length = 7 ∨ v.length = 31) →
      validateField fd .password v = some ⟨"Password must be 8-30 characters", true⟩ ∧
      validateAndNormalize (.wellTyped ⟨chars "John", chars "Doe", chars "john@gmail.com", v⟩) =
        .error ⟨"Password must be 8-30 characters", "password"⟩) ∧
    ((v.length = 8 ∨ v.length = 30) →
      v.any isLowerAlpha = true → v.any isUpperAlpha = true →
      v.any isDigitCh = true → v.any isSpecialCh = true →
      validateField fd .password v = none ∧
      validateAndNormalize (.wellTyped ⟨chars "John", chars "Doe", chars "john@gmail.com", v⟩) =
        .ok ⟨chars "John", chars "Doe", chars "john@gmail.com", v⟩) := by
  constructor
  · intro h
    have hne : ¬(v = []) := by
      intro hv
      rcases h with h | h <;> simp [hv] at h
    have hlen : v.length < 8 ∨ v.length > 30 := by
      rcases h with h | h <;> omega
    constructor
    · simp [validateField, hne, hlen]
    · rw [van_password]
      simp [hne, hlen]
  · intro h hl hu hd hs
    have hne : ¬(v = []) := by
      intro hv
      rcases h with h | h <;> simp [hv] at h
    have hlen : ¬(v.length < 8 ∨ v.length > 30) := by
      rcases h with h | h <;> omega
    constructor
    · simp [validateField, hne, hlen, hl, hu, hd, hs]
    · rw [van_password]
      simp [hne, hlen, hl, hu, hd, hs]

/-- C9 (witness): lengths 7, 8, 30 and 31 at concrete passwords. -/
theorem passwordLengthBoundary_witness :
    (validateField emptyFormData .password (chars "aaaaaaa") =
      some ⟨"Password must be 8-30 characters", true⟩) ∧
    (validateField emptyFormData .password (chars "Pass1!aa") = none) ∧
    (validateField emptyFormData .password (chars "Aa1!Aa1!Aa1!Aa1!Aa1!Aa1!Aa1!xx") = none) ∧
    (validateField emptyFormData .password (chars "Aa1!Aa1!Aa1!Aa1!Aa1!Aa1!Aa1!xxy") =
      some ⟨"Password must be 8-30 characters", true⟩) :=
  ⟨((passwordLengthBoundary emptyFormData (chars "aaaaaaa")).1 (by decide)).1,
   ((passwordLengthBoundary emptyFormData (chars "Pass1!aa")).2 (by decide)
     (by decide) (by decide) (by decide) (by decide)).1,
   ((passwordLengthBoundary emptyFormData (chars "Aa1!Aa1!Aa1!Aa1!Aa1!Aa1!Aa1!xx")).2
     (by decide) (by decide) (by decide) (by decide) (by decide)).1,
   ((passwordLengthBoundary emptyFormData (chars "Aa1!Aa1!Aa1!Aa1!Aa1!Aa1!Aa1!xxy")).1
     (by decide)).1⟩

/-- C10 (confirmed): every non-201 response of the mock route leaves the
store untouched (same records, same `nextId`), and every 201 appends
exactly one record whose normalized e-mail differs from every previously
stored record's e-mail and increments `nextId` by one. -/
theorem mockStore_frame (st : RouteMock.MockState) (req : ReqParse) (hash now : String) :
    ((RouteMock.POST st req hash now).2.status ≠ 201 →
      (RouteMock.POST st req hash now).1 = st) ∧
    ((RouteMock.POST st req hash now).2.status = 201 →
      ∃ u : RouteMock.MockUser,
        (RouteMock.POST st req hash now).1.mockUsers = st.mockUsers ++ [u] ∧
        (RouteMock.POST st req hash now).1.nextId = st.nextId + 1 ∧
        ∀ old ∈ st.mockUsers, ¬(old.email = u.email)) := by
  cases req with
  | jsonFail => exact ⟨fun _ => rfl, by simp [RouteMock.POST]⟩
  | badShape => exact ⟨fun _ => rfl, by simp [RouteMock.POST]⟩
  | body b =>
    by_cases hdup : st.mockUsers.any
        (fun x => x.email = lowerList (trimStr b.email)) = true
    · exact ⟨fun _ => by simp [RouteMock.POST, hdup], by simp [RouteMock.POST, hdup]⟩
    · refine ⟨fun hne => absurd (by simp [RouteMock.POST, hdup]) hne, fun _ => ?_⟩
      refine ⟨⟨st.nextId, trimStr b.firstName, trimStr b.lastName,
        lowerList (trimStr b.email), hash, now⟩, by simp [RouteMock.POST, hdup],
        by simp [RouteMock.POST, hdup], ?_⟩
      intro old hold heq
      have hall : ∀ x ∈ st.mockUsers, ¬(x.email = lowerList (trimStr b.email)) := by
        simpa using hdup
      exact hall old hold heq

/-- C10 (witness): a failed parse leaves the store unchanged; a fresh valid
registration appends one record and bumps `nextId` from 5 to 6. -/
theorem mockStore_frame_witness :
    (RouteMock.POST ⟨[], 5⟩ .jsonFail "h" "t").1 = ⟨[], 5⟩ ∧
    (∃ u : RouteMock.MockUser,
      (RouteMock.POST ⟨[], 5⟩
        (.body ⟨chars "John", chars "Doe", chars "john@gmail.com", chars "Password123!"⟩)
        "h" "t").1.mockUsers = [] ++ [u] ∧
      (RouteMock.POST ⟨[], 5⟩
        (.body ⟨chars "John", chars "Doe", chars "john@gmail.com", chars "Password123!"⟩)
        "h" "t").1.nextId = 5 + 1 ∧
      ∀ old ∈ ([] : List RouteMock.MockUser), ¬(old.email = u.email)) :=
  ⟨(mockStore_frame ⟨[], 5⟩ .jsonFail "h" "t").1 (by decide),
   (mockStore_frame ⟨[], 5⟩
     (.body ⟨chars "John", chars "Doe", chars "john@gmail.com", chars "Password123!"⟩)
     "h" "t").2 (by decide)⟩

end Reg
